import Mathlib

/-!
Verification development for the Flow Lifecycle & History Manager
(frontend/src/stores/flowsManagerStore.ts).

The store is embedded shallowly: the per-document undo/redo history, the
flow registry's addFlow / removeFlow / deleteComponent / uploadFlow
operations, and the debounced autosave coordinator are translated into
pure Lean functions over explicit state.  External collaborators
(Persistence Gateway, Graph Session paste, utility functions from
reactflowUtils) are modelled as an effect trace and an oracle record of
abstract functions, respectively.  Node and edge payloads are kept
generic (any types with decidable equality); JSON.stringify equality on
deep-cloned plain data is structural equality.
-/

set_option maxHeartbeats 1000000
set_option linter.unusedSectionVars false

namespace FlowsManager

/-- Document identifiers (flow ids) are strings. -/
abbrev FlowId := String

/-- A history entry: an immutable snapshot of the Graph Session's nodes and
edges (the source stores `{nodes: cloneDeep(nodes), edges: cloneDeep(edges)}`;
in a pure model the deep copy is the value itself). -/
structure GraphSnapshot (ν ε : Type) where
  nodes : List ν
  edges : List ε
deriving DecidableEq, Repr

/-- The `UseUndoRedoOptions` record from types/zustand/flowsManager. -/
structure UseUndoRedoOptions where
  maxHistorySize : Nat
  enableShortcuts : Bool

/-- `defaultOptions` from the source: `{ maxHistorySize: 100, enableShortcuts: true }`. -/
def defaultOptions : UseUndoRedoOptions :=
  { maxHistorySize := 100, enableShortcuts := true }

/-- ECMAScript `Array.prototype.slice` index resolution: a negative index is
taken relative to the end of the array and clamped at 0; a non-negative index
is clamped at the length. -/
def jsSliceIdx (len : Nat) (i : Int) : Nat :=
  if i < 0 then ((len : Int) + i).toNat else min i.toNat len

/-- ECMAScript `Array.prototype.slice start fin`: the elements from the
resolved start index (inclusive) to the resolved end index (exclusive). -/
def jsSlice (l : List α) (start fin : Int) : List α :=
  (l.take (jsSliceIdx l.length fin)).drop (jsSliceIdx l.length start)

/-- The state the history manager operates on: the store's `currentFlowId`,
the live Graph Session (`useFlowStore` nodes/edges), and the two module-level
maps `past` and `future` keyed by flow id.  A key that was never written maps
to the empty stack (the source reads absent keys through `?.` / `?? 0`, which
behaves identically). -/
structure HistoryState (ν ε : Type) where
  currentFlowId : FlowId
  nodes : List ν
  edges : List ε
  past : FlowId → List (GraphSnapshot ν ε)
  future : FlowId → List (GraphSnapshot ν ε)

/-- Point update of a history map (`past[currentFlowId] = v`). -/
def updMap (m : FlowId → List (GraphSnapshot ν ε)) (id : FlowId)
    (v : List (GraphSnapshot ν ε)) : FlowId → List (GraphSnapshot ν ε) :=
  fun i => if i = id then v else m i

variable {ν ε : Type} [DecidableEq ν] [DecidableEq ε]

/-- `takeSnapshot` from the source.  The deduplication guard
`pastLength > 0 && JSON.stringify(past[id][pastLength-1]) === JSON.stringify(newState)`
is exactly `(past id).getLast? = some newState` (structural equality on plain
data).  On a push with a non-empty past stack the source first reassigns
`past[id] = past[id].slice(pastLength - maxHistorySize + 1, pastLength)` and
then pushes; with an empty past stack it assigns the singleton.  Both push
paths end with `future[id] = []`. -/
def takeSnapshot (s : HistoryState ν ε) : HistoryState ν ε :=
  let currentFlowId := s.currentFlowId
  let newState : GraphSnapshot ν ε := ⟨s.nodes, s.edges⟩
  let p := s.past currentFlowId
  if p.getLast? = some newState then s
  else if 0 < p.length then
    { s with
      past := updMap s.past currentFlowId
        (jsSlice p ((p.length : Int) - (defaultOptions.maxHistorySize : Int) + 1)
          (p.length : Int) ++ [newState]),
      future := updMap s.future currentFlowId [] }
  else
    { s with
      past := updMap s.past currentFlowId [newState],
      future := updMap s.future currentFlowId [] }

/-- `undo` from the source: when the past stack of the current document is
non-empty, pop its top (`slice(0, pastLength - 1)`), push the live graph onto
the future stack, and overwrite the live graph with the popped entry;
otherwise do nothing. -/
def undo (s : HistoryState ν ε) : HistoryState ν ε :=
  let currentFlowId := s.currentFlowId
  let p := s.past currentFlowId
  match p.getLast? with
  | none => s
  | some pastState =>
    { s with
      past := updMap s.past currentFlowId (jsSlice p 0 ((p.length : Int) - 1)),
      future := updMap s.future currentFlowId
        (s.future currentFlowId ++ [⟨s.nodes, s.edges⟩]),
      nodes := pastState.nodes,
      edges := pastState.edges }

/-- `redo` from the source: symmetric to `undo`, but the push onto the past
stack is unbounded (the `maxHistorySize` slice of `takeSnapshot` is not
applied here). -/
def redo (s : HistoryState ν ε) : HistoryState ν ε :=
  let currentFlowId := s.currentFlowId
  let f := s.future currentFlowId
  match f.getLast? with
  | none => s
  | some futureState =>
    { s with
      future := updMap s.future currentFlowId (jsSlice f 0 ((f.length : Int) - 1)),
      past := updMap s.past currentFlowId
        (s.past currentFlowId ++ [⟨s.nodes, s.edges⟩]),
      nodes := futureState.nodes,
      edges := futureState.edges }

/-- The operations a client can interleave on the history manager: the three
store operations plus an external edit of the live Graph Session. -/
inductive HistoryOp (ν ε : Type) where
  | snapshot : HistoryOp ν ε
  | undoOp : HistoryOp ν ε
  | redoOp : HistoryOp ν ε
  | edit (nodes : List ν) (edges : List ε) : HistoryOp ν ε
deriving DecidableEq, Repr

/-- Apply one operation. -/
def applyOp (s : HistoryState ν ε) : HistoryOp ν ε → HistoryState ν ε
  | HistoryOp.snapshot => takeSnapshot s
  | HistoryOp.undoOp => undo s
  | HistoryOp.redoOp => redo s
  | HistoryOp.edit nodes edges => { s with nodes := nodes, edges := edges }

/-- Run a sequence of operations. -/
def run (s : HistoryState ν ε) (ops : List (HistoryOp ν ε)) : HistoryState ν ε :=
  ops.foldl applyOp s

/-- The initial store state: `currentFlowId = ""` and both history maps
empty, with a given live graph. -/
def initState (nodes : List ν) (edges : List ε) : HistoryState ν ε :=
  { currentFlowId := "", nodes := nodes, edges := edges,
    past := fun _ => [], future := fun _ => [] }

/-- `true` on the operations allowed in a pure snapshot sequence
(`takeSnapshot` calls with arbitrary graph edits in between). -/
def isSnapshotOrEdit : HistoryOp ν ε → Bool
  | HistoryOp.undoOp => false
  | HistoryOp.redoOp => false
  | _ => true

theorem updMap_same (m : FlowId → List (GraphSnapshot ν ε)) (id : FlowId)
    (v : List (GraphSnapshot ν ε)) : updMap m id v id = v := by
  simp [updMap]

theorem updMap_other (m : FlowId → List (GraphSnapshot ν ε)) (id i : FlowId)
    (v : List (GraphSnapshot ν ε)) (h : i ≠ id) : updMap m id v i = m i := by
  simp [updMap, h]

theorem updMap_updMap (m : FlowId → List (GraphSnapshot ν ε)) (id : FlowId)
    (v w : List (GraphSnapshot ν ε)) : updMap (updMap m id v) id w = updMap m id w := by
  funext i
  by_cases h : i = id <;> simp [updMap, h]

theorem updMap_self (m : FlowId → List (GraphSnapshot ν ε)) (id : FlowId) :
    updMap m id (m id) = m := by
  funext i
  by_cases h : i = id <;> simp [updMap, h]

theorem jsSliceIdx_le (len : Nat) (i : Int) : jsSliceIdx len i ≤ len := by
  unfold jsSliceIdx
  split <;> omega

theorem jsSliceIdx_zero (len : Nat) : jsSliceIdx len 0 = 0 := by
  unfold jsSliceIdx
  simp

theorem jsSliceIdx_self (len : Nat) : jsSliceIdx len (len : Int) = len := by
  unfold jsSliceIdx
  rw [if_neg (by omega)]
  omega

theorem jsSliceIdx_pred (len : Nat) (h : 0 < len) :
    jsSliceIdx len ((len : Int) - 1) = len - 1 := by
  unfold jsSliceIdx
  rw [if_neg (by omega)]
  omega

theorem jsSlice_zero_pred (l : List α) :
    jsSlice l 0 ((l.length : Int) - 1) = l.dropLast := by
  rcases l with _ | ⟨a, t⟩
  · rfl
  · unfold jsSlice
    rw [jsSliceIdx_zero, jsSliceIdx_pred _ (by simp), List.drop_zero,
      List.dropLast_eq_take]

/-- Length of the eviction slice used by `takeSnapshot`'s push path. -/
theorem takeSnapshot_slice_length (p : List (GraphSnapshot ν ε)) :
    (jsSlice p ((p.length : Int) - (defaultOptions.maxHistorySize : Int) + 1)
      (p.length : Int)).length
      = p.length - jsSliceIdx p.length ((p.length : Int) - 100 + 1) := by
  unfold jsSlice
  rw [jsSliceIdx_self]
  simp [defaultOptions]

theorem GraphSnapshot.eta (g : GraphSnapshot ν ε) :
    (⟨g.nodes, g.edges⟩ : GraphSnapshot ν ε) = g := rfl

theorem takeSnapshot_currentFlowId (s : HistoryState ν ε) :
    (takeSnapshot s).currentFlowId = s.currentFlowId := by
  simp only [takeSnapshot]
  split_ifs <;> rfl

theorem takeSnapshot_nodes (s : HistoryState ν ε) :
    (takeSnapshot s).nodes = s.nodes := by
  simp only [takeSnapshot]
  split_ifs <;> rfl

theorem takeSnapshot_edges (s : HistoryState ν ε) :
    (takeSnapshot s).edges = s.edges := by
  simp only [takeSnapshot]
  split_ifs <;> rfl

/-- After any `takeSnapshot`, the top of the current document's past stack is
the snapshot of the live graph. -/
theorem takeSnapshot_getLast (s : HistoryState ν ε) :
    ((takeSnapshot s).past s.currentFlowId).getLast? = some ⟨s.nodes, s.edges⟩ := by
  simp only [takeSnapshot]
  split_ifs with h1 h2
  · exact h1
  · simp [updMap_same, List.getLast?_concat]
  · simp [updMap_same]

theorem takeSnapshot_past_ne_nil (s : HistoryState ν ε) :
    (takeSnapshot s).past s.currentFlowId ≠ [] := by
  intro hnil
  have hlast := takeSnapshot_getLast s
  rw [hnil] at hlast
  simp at hlast

/-- A `takeSnapshot` whose deduplication guard fires is a complete no-op. -/
theorem takeSnapshot_of_dedup (s : HistoryState ν ε)
    (h : (s.past s.currentFlowId).getLast? = some ⟨s.nodes, s.edges⟩) :
    takeSnapshot s = s := by
  simp only [takeSnapshot]
  rw [if_pos h]

theorem takeSnapshot_idem (s : HistoryState ν ε) :
    takeSnapshot (takeSnapshot s) = takeSnapshot s := by
  apply takeSnapshot_of_dedup
  rw [takeSnapshot_currentFlowId, takeSnapshot_nodes, takeSnapshot_edges]
  exact takeSnapshot_getLast s

/-- A `takeSnapshot` that pushes (the dedup guard does not fire) clears the
current document's future stack. -/
theorem takeSnapshot_future (s : HistoryState ν ε) :
    takeSnapshot s = s ∨ (takeSnapshot s).future s.currentFlowId = [] := by
  simp only [takeSnapshot]
  split_ifs with h1 h2
  · exact Or.inl rfl
  · exact Or.inr (updMap_same _ _ _)
  · exact Or.inr (updMap_same _ _ _)

/-- One `takeSnapshot` keeps every past stack at 50 entries or fewer: the
eviction slice's start index `pastLength - 100 + 1` is negative below length
99, so it resolves to `max (2 * pastLength - 99) 0` from the end, which
already evicts once the stack holds 50 entries. -/
theorem takeSnapshot_past_le (s : HistoryState ν ε) (i : FlowId)
    (hi : (s.past i).length ≤ 50) :
    ((takeSnapshot s).past i).length ≤ 50 := by
  simp only [takeSnapshot]
  split_ifs with h1 h2
  · exact hi
  · dsimp only
    by_cases hic : i = s.currentFlowId
    · subst hic
      simp only [updMap_same, List.length_append, List.length_cons,
        List.length_nil]
      rw [takeSnapshot_slice_length]
      unfold jsSliceIdx
      split_ifs <;> omega
    · rw [updMap_other _ _ _ _ hic]
      exact hi
  · dsimp only
    by_cases hic : i = s.currentFlowId
    · subst hic
      simp [updMap_same]
    · rw [updMap_other _ _ _ _ hic]
      exact hi

/-- The 50-entry bound is preserved by any sequence of snapshot and edit
operations. -/
theorem run_past_le (ops : List (HistoryOp ν ε)) :
    ∀ s : HistoryState ν ε, (∀ op ∈ ops, isSnapshotOrEdit op = true) →
      (∀ i, (s.past i).length ≤ 50) → ∀ i, ((run s ops).past i).length ≤ 50 := by
  induction ops with
  | nil =>
    intro s _ hs i
    exact hs i
  | cons op rest ih =>
    intro s hops hs i
    have hop : isSnapshotOrEdit op = true := hops op (by simp)
    have hrest : ∀ o ∈ rest, isSnapshotOrEdit o = true := by
      intro o ho
      exact hops o (by simp [ho])
    refine ih (applyOp s op) hrest ?_ i
    intro j
    cases op with
    | snapshot => exact takeSnapshot_past_le s j (hs j)
    | edit n e => exact hs j
    | undoOp => simp [isSnapshotOrEdit] at hop
    | redoOp => simp [isSnapshotOrEdit] at hop

/-- `redo` exactly inverts `undo` whenever the current document's past stack
is non-empty. -/
theorem redo_undo (s : HistoryState ν ε) (h : s.past s.currentFlowId ≠ []) :
    redo (undo s) = s := by
  obtain ⟨cid, ns, es, pa, fu⟩ := s
  simp only at h
  have hx : (pa cid).getLast? = some ((pa cid).getLast h) :=
    List.getLast?_eq_getLast _ h
  simp only [undo, redo, hx, updMap_same, List.getLast?_concat,
    jsSlice_zero_pred, List.dropLast_concat, updMap_updMap, GraphSnapshot.eta]
  rw [List.dropLast_concat_getLast h, updMap_self, updMap_self]

/-- With a past stack of exactly 50 entries and a fresh snapshot, the push
path of `takeSnapshot` drops the oldest entry: the slice start resolves to
index 1. -/
theorem takeSnapshot_evicts_at_50 (s : HistoryState ν ε)
    (hlen : (s.past s.currentFlowId).length = 50)
    (hded : (s.past s.currentFlowId).getLast? ≠ some ⟨s.nodes, s.edges⟩) :
    (takeSnapshot s).past s.currentFlowId
      = (s.past s.currentFlowId).drop 1 ++ [⟨s.nodes, s.edges⟩] := by
  simp only [takeSnapshot]
  rw [if_neg hded, if_pos (by omega)]
  dsimp only
  rw [updMap_same]
  congr 1
  unfold jsSlice
  rw [jsSliceIdx_self, List.take_length]
  have h1 : jsSliceIdx (s.past s.currentFlowId).length
      (((s.past s.currentFlowId).length : Int)
        - (defaultOptions.maxHistorySize : Int) + 1) = 1 := by
    have hm : (defaultOptions.maxHistorySize : Int) = 100 := rfl
    unfold jsSliceIdx
    rw [hlen, hm, if_pos (by omega)]
    omega
  rw [h1]

def c1Past : List (GraphSnapshot Nat Nat) :=
  (List.range 50).map fun i => ⟨[i], []⟩

def c1State : HistoryState Nat Nat :=
  { currentFlowId := "", nodes := [50], edges := [],
    past := fun i => if i = "" then c1Past else [],
    future := fun _ => [] }

/-- C1: the claim says a push onto a past stack holding fewer than
`maxHistorySize` (100) entries evicts nothing and grows the stack by one.
The code disagrees: with 50 distinct entries (fewer than 100) and a fresh
live graph, `takeSnapshot` evicts the oldest entry and the stack length stays
at 50 instead of growing to 51.  This evaluates the code at that failing
input. -/
theorem claim_C1 :
    (c1State.past "").length = 50 ∧
    50 < defaultOptions.maxHistorySize ∧
    (c1State.past "").getLast? ≠ some ⟨c1State.nodes, c1State.edges⟩ ∧
    ((takeSnapshot c1State).past "").length = 50 ∧
    (takeSnapshot c1State).past "" = c1Past.drop 1 ++ [⟨[50], []⟩] ∧
    (⟨[0], []⟩ : GraphSnapshot Nat Nat) ∈ c1State.past "" ∧
    (⟨[0], []⟩ : GraphSnapshot Nat Nat) ∉ (takeSnapshot c1State).past "" := by
  decide

def c2Ops : List (HistoryOp Nat Nat) :=
  [HistoryOp.snapshot, HistoryOp.edit [2] [], HistoryOp.snapshot,
   HistoryOp.undoOp, HistoryOp.undoOp, HistoryOp.edit [2] [], HistoryOp.redoOp]

/-- C2 counterexample: a state reachable by snapshot/undo/redo calls (with
graph edits in between) in which a further `takeSnapshot` fires the dedup
guard and therefore leaves the current document's future stack non-empty. -/
theorem claim_C2_cex :
    (takeSnapshot (run (initState [1] []) c2Ops)).future "" = [⟨[2], []⟩] ∧
    (takeSnapshot (run (initState [1] []) c2Ops)).future "" ≠ [] := by
  decide

/-- C2 (amended): after any `takeSnapshot` call, either the call was a
deduplicated no-op (the whole store, including the future stack, is
unchanged — so the future stack can stay non-empty), or the current
document's future stack is empty. -/
theorem claim_C2 (s : HistoryState ν ε) :
    takeSnapshot s = s ∨ (takeSnapshot s).future s.currentFlowId = [] :=
  takeSnapshot_future s

/-- C3: for every sequence of `takeSnapshot` calls on one document (arbitrary
graph edits in between), starting from empty history, no past stack ever
exceeds `maxHistorySize` (100) entries. -/
theorem claim_C3 (nodes : List ν) (edges : List ε) (ops : List (HistoryOp ν ε))
    (h : ∀ op ∈ ops, isSnapshotOrEdit op = true) (i : FlowId) :
    ((run (initState nodes edges) ops).past i).length
      ≤ defaultOptions.maxHistorySize := by
  have h50 := run_past_le ops (initState nodes edges) h
    (fun j => by simp [initState]) i
  have hm : defaultOptions.maxHistorySize = 100 := rfl
  omega

def c3Ops : List (HistoryOp Nat Nat) :=
  [HistoryOp.snapshot, HistoryOp.edit [1] [], HistoryOp.snapshot]

theorem claim_C3_witness :
    (∀ op ∈ c3Ops, isSnapshotOrEdit op = true) ∧
    ((run (initState [0] []) c3Ops).past "").length
      ≤ defaultOptions.maxHistorySize :=
  ⟨by decide, claim_C3 [0] [] c3Ops (by decide) ""⟩

/-- C10: starting from empty history, sequences of `takeSnapshot` calls can
never grow a past stack beyond 50 entries (half the stated `maxHistorySize`),
because the eviction slice's start index `pastLength - maxHistorySize + 1`
is negative for short stacks and is resolved relative to the end of the
array; once the stack reaches 50 entries each push evicts the oldest
entry. -/
theorem claim_C10 (nodes : List ν) (edges : List ε) (ops : List (HistoryOp ν ε))
    (h : ∀ op ∈ ops, isSnapshotOrEdit op = true) (i : FlowId) :
    ((run (initState nodes edges) ops).past i).length ≤ 50 ∧
    ∀ s : HistoryState ν ε, (s.past s.currentFlowId).length = 50 →
      (s.past s.currentFlowId).getLast? ≠ some ⟨s.nodes, s.edges⟩ →
      (takeSnapshot s).past s.currentFlowId
        = (s.past s.currentFlowId).drop 1 ++ [⟨s.nodes, s.edges⟩] := by
  constructor
  · exact run_past_le ops (initState nodes edges) h
      (fun j => by simp [initState]) i
  · intro s hlen hded
    exact takeSnapshot_evicts_at_50 s hlen hded

def c10State : HistoryState Nat Nat :=
  { currentFlowId := "", nodes := [50], edges := [],
    past := fun i => if i = "" then (List.range 50).map (fun k => ⟨[k], []⟩) else [],
    future := fun _ => [] }

theorem claim_C10_witness :
    (∀ op ∈ c3Ops, isSnapshotOrEdit op = true) ∧
    ((run (initState [0] []) c3Ops).past "").length ≤ 50 ∧
    (c10State.past c10State.currentFlowId).length = 50 ∧
    (c10State.past c10State.currentFlowId).getLast?
      ≠ some ⟨c10State.nodes, c10State.edges⟩ ∧
    (takeSnapshot c10State).past c10State.currentFlowId
      = (c10State.past c10State.currentFlowId).drop 1
        ++ [⟨c10State.nodes, c10State.edges⟩] :=
  ⟨by decide, (claim_C10 [0] [] c3Ops (by decide) "").1, by decide, by decide,
    (claim_C10 [0] [] c3Ops (by decide) "").2 c10State (by decide) (by decide)⟩

/-- C4: if the most recent past entry of the current document already equals
the live graph's snapshot, `takeSnapshot` is a complete no-op; and for every
state, an immediately repeated `takeSnapshot` leaves the past stack length
unchanged. -/
theorem claim_C4 (s t : HistoryState ν ε)
    (h : (s.past s.currentFlowId).getLast? = some ⟨s.nodes, s.edges⟩) :
    takeSnapshot s = s ∧
    ((takeSnapshot (takeSnapshot t)).past t.currentFlowId).length
      = ((takeSnapshot t).past t.currentFlowId).length := by
  refine ⟨takeSnapshot_of_dedup s h, ?_⟩
  rw [takeSnapshot_idem]

def c4State : HistoryState Nat Nat :=
  { currentFlowId := "", nodes := [1], edges := [],
    past := fun i => if i = "" then [⟨[1], []⟩] else [],
    future := fun _ => [] }

theorem claim_C4_witness :
    (c4State.past c4State.currentFlowId).getLast?
      = some ⟨c4State.nodes, c4State.edges⟩ ∧
    (takeSnapshot c4State = c4State ∧
      ((takeSnapshot (takeSnapshot c4State)).past c4State.currentFlowId).length
        = ((takeSnapshot c4State).past c4State.currentFlowId).length) :=
  ⟨by decide, claim_C4 c4State c4State (by decide)⟩

/-- C5: `takeSnapshot` then `undo` then `redo`, with no intervening edits,
restores the live graph to its pre-snapshot value and both stacks to their
pre-`undo` (= post-snapshot) state. -/
theorem claim_C5 (s : HistoryState ν ε) :
    redo (undo (takeSnapshot s)) = takeSnapshot s ∧
    (redo (undo (takeSnapshot s))).nodes = s.nodes ∧
    (redo (undo (takeSnapshot s))).edges = s.edges := by
  have hr : redo (undo (takeSnapshot s)) = takeSnapshot s := by
    apply redo_undo
    rw [takeSnapshot_currentFlowId]
    exact takeSnapshot_past_ne_nil s
  refine ⟨hr, ?_, ?_⟩
  · rw [hr, takeSnapshot_nodes]
  · rw [hr, takeSnapshot_edges]

/-- C6: `undo` with an empty past stack, and `redo` with an empty future
stack, are complete no-ops: the live graph and every document's stacks are
untouched. -/
theorem claim_C6 (s : HistoryState ν ε) :
    (s.past s.currentFlowId = [] → undo s = s) ∧
    (s.future s.currentFlowId = [] → redo s = s) := by
  constructor
  · intro h
    simp [undo, h]
  · intro h
    simp [redo, h]

def c6State : HistoryState Nat Nat := initState [1] []

theorem claim_C6_witness :
    c6State.past c6State.currentFlowId = [] ∧
    c6State.future c6State.currentFlowId = [] ∧
    undo c6State = c6State ∧ redo c6State = c6State :=
  ⟨rfl, rfl, (claim_C6 c6State).1 rfl, (claim_C6 c6State).2 rfl⟩

/-! ## Flow Registry: addFlow / removeFlow / deleteComponent / uploadFlow

External collaborators are modelled explicitly: calls into the Persistence
Gateway and the Graph Session's paste are recorded in an effect trace, and
the pure utility functions imported from reactflowUtils (plus the id the
gateway assigns on create) are supplied as an oracle record, since their
code is outside this store.  `processFlows` also yields a catalog partition
published to the types store; only its flows component matters to the
registry state, so the model keeps that part. -/

/-- A viewport (zoom/x/y).  The source's numbers only flow through
untouched, so integers suffice. -/
structure Viewport where
  zoom : Int
  x : Int
  y : Int
deriving DecidableEq, Repr

/-- An XY position, as passed to the Graph Session's paste. -/
structure XYPosition where
  x : Int
  y : Int
deriving DecidableEq, Repr

/-- A flow document's graph payload. -/
structure FlowData (ν ε : Type) where
  nodes : List ν
  edges : List ε
  viewport : Viewport
deriving DecidableEq, Repr

/-- A flow document.  `is_component` is optional in the source type; `data`
is non-null asserted (`flow!.data!`) on every path the registry exercises,
so it is kept as a plain field. -/
structure FlowType (ν ε : Type) where
  id : String
  name : String
  is_component : Option Bool
  data : FlowData ν ε
deriving DecidableEq, Repr

/-- One call into an external collaborator, in program order. -/
inductive StoreEffect (ν ε : Type) where
  | paste (nodes : List ν) (edges : List ε) (position : XYPosition)
  | saveFlowToDatabase (flow : FlowType ν ε)
  | deleteFlowFromDatabase (id : String)
deriving DecidableEq, Repr

/-- The registry slice of the store's state. -/
structure RegistryState (ν ε : Type) where
  currentFlowId : String
  flows : List (FlowType ν ε)
  currentFlow : Option (FlowType ν ε)
  isLoading : Bool
deriving DecidableEq, Repr

/-- Oracle for the external pure helpers and the gateway's id assignment. -/
structure Externals (ν ε : Type) where
  processDataFromFlow : FlowType ν ε → FlowData ν ε
  createNewFlow : FlowData ν ε → Option (FlowType ν ε) → FlowType ν ε
  addVersionToDuplicates : FlowType ν ε → List (FlowType ν ε) → String
  processFlows : List (FlowType ν ε) → List (FlowType ν ε)
  saveFlowToDatabase : FlowType ν ε → String

/-- `setFlows` from the source: replaces the collection and recomputes the
derived current flow against the unchanged current id. -/
def setFlows (flows : List (FlowType ν ε)) (st : RegistryState ν ε) :
    RegistryState ν ε :=
  { st with
    flows := flows,
    currentFlow := flows.find? fun f => f.id = st.currentFlowId }

/-- `removeFlow` from the source: when a flow with the id exists, delete it
through the gateway, re-partition the remaining collection, store it, and
clear the loading flag; otherwise do nothing (the promise never settles in
the source, but no state changes and no effects occur). -/
def removeFlow (ext : Externals ν ε) (id : String) (st : RegistryState ν ε) :
    RegistryState ν ε × List (StoreEffect ν ε) :=
  if (st.flows.findIdx? fun f => f.id = id).isSome then
    let flows' := ext.processFlows (st.flows.filter fun f => f.id ≠ id)
    ({ setFlows flows' st with isLoading := false },
      [StoreEffect.deleteFlowFromDatabase id])
  else (st, [])

/-- `deleteComponent` from the source: find a component flow by name and
forward to `removeFlow`; do nothing when none matches. -/
def deleteComponent (ext : Externals ν ε) (key : String) (st : RegistryState ν ε) :
    RegistryState ν ε × List (StoreEffect ν ε) :=
  match st.flows.find? fun f => f.is_component = some true && f.name = key with
  | some componentFlow => removeFlow ext componentFlow.id st
  | none => (st, [])

/-- The default empty graph payload used when no source flow is given:
`{ nodes: [], edges: [], viewport: { zoom: 1, x: 0, y: 0 } }`. -/
def emptyFlowData : FlowData ν ε :=
  { nodes := [], edges := [], viewport := { zoom := 1, x := 0, y := 0 } }

/-- `addFlow` from the source.  Returns the value the promise resolves with,
the new registry state, and the external calls made, in program order.
Asynchronous completions (the fire-and-forget `deleteComponent` and the
200 ms `setTimeout` in the override branch) are modelled in program order.
When `newProject` is false the source dereferences `flow!`; that branch is
only ever reached with a flow present, and the unreachable `none` case is
modelled as a no-op. -/
def addFlow (ext : Externals ν ε) (newProject : Bool) (flow : Option (FlowType ν ε))
    (override : Bool) (position : Option XYPosition) (st : RegistryState ν ε) :
    Option String × RegistryState ν ε × List (StoreEffect ν ε) :=
  if newProject then
    let flowData := match flow with
      | some f => ext.processDataFromFlow f
      | none => emptyFlowData
    if override then
      match flow with
      | none => (none, st, [])
      | some f =>
        let (st1, effs1) := deleteComponent ext f.name st
        let newFlow := ext.createNewFlow flowData flow
        let id := ext.saveFlowToDatabase newFlow
        let newFlow1 := { newFlow with id := id }
        let flows' := ext.processFlows (newFlow1 :: st1.flows)
        let st2 := { setFlows flows' st1 with isLoading := false }
        (none, st2, effs1 ++ [StoreEffect.saveFlowToDatabase newFlow])
    else
      let newFlow := ext.createNewFlow flowData flow
      let newName := ext.addVersionToDuplicates newFlow st.flows
      let newFlow1 := { newFlow with name := newName }
      let id := ext.saveFlowToDatabase newFlow1
      let newFlow2 := { newFlow1 with id := id }
      let flows' := ext.processFlows (newFlow2 :: st.flows)
      let st' := { setFlows flows' st with isLoading := false }
      (some id, st', [StoreEffect.saveFlowToDatabase newFlow1])
  else
    match flow with
    | some f =>
      (none, st,
        [StoreEffect.paste f.data.nodes f.data.edges
          (position.getD { x := 10, y := 10 })])
    | none => (none, st, [])

/-- The parsed contents of an uploaded resource: the object itself read as a
single flow, plus the optional `flows` collection for bundled payloads. -/
structure FileData (ν ε : Type) where
  flow : FlowType ν ε
  flows : Option (List (FlowType ν ε))
deriving DecidableEq, Repr

/-- `uploadFlow` from the source, for a supplied (already parsed) resource.
The no-file branch opens a file dialog and suspends on user input, so only
the supplied-resource path is modelled.  The type-mismatch guard is exactly
the source's
`newProject && ((!fileData.is_component && isComponent === true) || (fileData.is_component !== undefined && fileData.is_component !== isComponent))`;
on a mismatch the promise rejects with the error string and nothing else
happens.  Otherwise each bundled flow (or the single flow) is forwarded to
`addFlow` with `override` undefined (falsy). -/
def uploadFlow (ext : Externals ν ε) (newProject : Bool) (fileData : FileData ν ε)
    (isComponent : Bool) (position : XYPosition) (st : RegistryState ν ε) :
    Except String (Option String) × RegistryState ν ε × List (StoreEffect ν ε) :=
  if newProject = true ∧
      ((fileData.flow.is_component ≠ some true ∧ isComponent = true) ∨
        (fileData.flow.is_component ≠ none ∧
          fileData.flow.is_component ≠ some isComponent)) then
    (Except.error "You cannot upload a component as a flow or vice versa", st, [])
  else
    match fileData.flows with
    | some fs =>
      let (st', effs) := fs.foldl
        (fun acc fl =>
          let r := addFlow ext newProject (some fl) false (some position) acc.1
          (r.2.1, acc.2 ++ r.2.2))
        (st, ([] : List (StoreEffect ν ε)))
      (Except.ok (some ""), st', effs)
    | none =>
      let r := addFlow ext newProject (some fileData.flow) false (some position) st
      (Except.ok r.1, r.2.1, r.2.2)

/-- C7: `addFlow` with `isNewDocument = false` is a pure paste: it returns
nothing, leaves the registry state (collection, current id, derived current
flow, loading flag) untouched, performs no Persistence Gateway call, and
invokes the Graph Session's paste exactly once with the source flow's nodes
and edges, at the given position or at the default offset (10, 10) when no
position is supplied. -/
theorem claim_C7 (ext : Externals ν ε) (f : FlowType ν ε) (override : Bool)
    (st : RegistryState ν ε) :
    (∀ pos : XYPosition,
      addFlow ext false (some f) override (some pos) st
        = (none, st, [StoreEffect.paste f.data.nodes f.data.edges pos])) ∧
    addFlow ext false (some f) override none st
      = (none, st,
          [StoreEffect.paste f.data.nodes f.data.edges { x := 10, y := 10 }]) := by
  constructor
  · intro pos
    rfl
  · rfl

/-- C9 (amended): for an `uploadFlow` call with a supplied resource and
`newProject = true`, a conflict between the parsed payload's component flag
and the requested `isComponent` intent (payload `is_component` true while the
caller requested `isComponent = false`, or any explicit mismatch between a
defined `is_component` and `isComponent`) makes the call fail with the
descriptive error and perform no mutation: no `addFlow` call, no Persistence
Gateway call, and the registry state unchanged. -/
theorem claim_C9 (ext : Externals ν ε) (fileData : FileData ν ε)
    (isComponent : Bool) (position : XYPosition) (st : RegistryState ν ε)
    (h : (fileData.flow.is_component = some true ∧ isComponent = false) ∨
      (fileData.flow.is_component ≠ none ∧
        fileData.flow.is_component ≠ some isComponent)) :
    uploadFlow ext true fileData isComponent position st
      = (Except.error "You cannot upload a component as a flow or vice versa",
          st, []) := by
  have hor : (fileData.flow.is_component ≠ some true ∧ isComponent = true) ∨
      (fileData.flow.is_component ≠ none ∧
        fileData.flow.is_component ≠ some isComponent) := by
    rcases h with ⟨h1, h2⟩ | h1
    · exact Or.inr ⟨by simp [h1], by simp [h1, h2]⟩
    · exact Or.inr h1
  unfold uploadFlow
  split_ifs with hc
  · rfl
  · exact absurd ⟨by trivial, hor⟩ hc

/-- A concrete oracle for the external helpers, used by concrete runs. -/
def extC : Externals Nat Nat where
  processDataFromFlow := fun f => f.data
  createNewFlow := fun d _ => { id := "", name := "new", is_component := none, data := d }
  addVersionToDuplicates := fun f _ => f.name
  processFlows := fun fs => fs
  saveFlowToDatabase := fun _ => "id1"

def c9Flow : FlowType Nat Nat where
  id := "f1"
  name := "comp"
  is_component := some true
  data := { nodes := [7], edges := [8], viewport := { zoom := 1, x := 0, y := 0 } }

def c9File : FileData Nat Nat where
  flow := c9Flow
  flows := none

def c9Registry : RegistryState Nat Nat where
  currentFlowId := ""
  flows := []
  currentFlow := none
  isLoading := true

/-- C9 counterexample: the claim as stated omits the `newProject` guard.
With `newProject = false`, a supplied resource whose `is_component` is true
while the caller requested `isComponent = false` is NOT rejected: the call
succeeds and forwards the payload to `addFlow`, which invokes the Graph
Session's paste. -/
theorem claim_C9_cex :
    uploadFlow extC false c9File false { x := 3, y := 4 } c9Registry
      = (Except.ok none, c9Registry,
          [StoreEffect.paste [7] [8] { x := 3, y := 4 }]) ∧
    (uploadFlow extC false c9File false { x := 3, y := 4 } c9Registry).1
      ≠ Except.error "You cannot upload a component as a flow or vice versa" := by
  constructor
  · rfl
  · have h1 : (uploadFlow extC false c9File false { x := 3, y := 4 } c9Registry).1
        = Except.ok none := rfl
    rw [h1]
    exact fun hcontra => Except.noConfusion hcontra

theorem claim_C9_witness :
    ((c9File.flow.is_component = some true ∧ false = false) ∨
      (c9File.flow.is_component ≠ none ∧ c9File.flow.is_component ≠ some false)) ∧
    uploadFlow extC true c9File false { x := 3, y := 4 } c9Registry
      = (Except.error "You cannot upload a component as a flow or vice versa",
          c9Registry, []) :=
  ⟨by decide, claim_C9 extC c9File false { x := 3, y := 4 } c9Registry (by decide)⟩

/-! ## Autosave Coordinator

`autoSaveCurrentFlow` clears the single module-level `saveTimeoutId` and
schedules a new 300 ms timeout capturing the supplied payload.  The model
keeps that single timer slot as an `Option (fire time, payload)` together
with the trace of `saveFlow(..., silent := true)` calls the fired timers have
made.  Events are the store calls (at a wall-clock time) and the event loop
reaching a point in time, which fires a due timer. -/

/-- The payload captured by `autoSaveCurrentFlow` (nodes, edges, viewport). -/
structure AutosavePayload (ν ε : Type) where
  nodes : List ν
  edges : List ε
  viewport : Viewport
deriving DecidableEq, Repr

/-- The autosave coordinator's state: the single pending timer for the whole
process (`saveTimeoutId`), and the flows passed to `saveFlow` so far. -/
structure AutosaveState (ν ε : Type) where
  pending : Option (Nat × AutosavePayload ν ε)
  saves : List (FlowType ν ε)
deriving DecidableEq, Repr

/-- `autoSaveCurrentFlow` at wall-clock time `t`: clear any previous timeout,
then schedule a new one for `t + 300` with the supplied payload. -/
def autoSaveCurrentFlow (t : Nat) (p : AutosavePayload ν ε)
    (s : AutosaveState ν ε) : AutosaveState ν ε :=
  { s with pending := some (t + 300, p) }

/-- The event loop reaching time `t`: a pending timer whose deadline has
arrived fires.  The callback saves the current flow with its data replaced by
the captured payload — silently — if a current flow exists, and does nothing
otherwise. -/
def fireDueTimer (currentFlow : Option (FlowType ν ε)) (t : Nat)
    (s : AutosaveState ν ε) : AutosaveState ν ε :=
  match s.pending with
  | some (due, p) =>
    if due ≤ t then
      match currentFlow with
      | some cf =>
        { pending := none,
          saves := s.saves
            ++ [{ cf with data := { nodes := p.nodes, edges := p.edges, viewport := p.viewport } }] }
      | none => { s with pending := none }
    else s
  | none => s

/-- An event of the autosave coordinator's timeline. -/
inductive AutosaveEvent (ν ε : Type) where
  | call (t : Nat) (p : AutosavePayload ν ε)
  | tick (t : Nat)
deriving DecidableEq, Repr

/-- Process one event. -/
def autosaveStep (currentFlow : Option (FlowType ν ε)) (s : AutosaveState ν ε) :
    AutosaveEvent ν ε → AutosaveState ν ε
  | AutosaveEvent.call t p => autoSaveCurrentFlow t p s
  | AutosaveEvent.tick t => fireDueTimer currentFlow t s

/-- Process a timeline. -/
def autosaveRun (currentFlow : Option (FlowType ν ε)) (s : AutosaveState ν ε)
    (events : List (AutosaveEvent ν ε)) : AutosaveState ν ε :=
  events.foldl (autosaveStep currentFlow) s

/-- C8: `autoSaveCurrentFlow` is a trailing-edge debounce on a single
process-wide timer.  (a) Every call replaces whatever timer was pending with
one scheduled 300 ms after the call and saves nothing itself, so at most one
timer is ever pending (the state holds a single slot, mirroring the single
`saveTimeoutId`).  (b) Three calls each within 300 ms of the previous one,
with the event loop running in between, produce exactly one save, whose
payload is the third call's.  (c) A timer that fires with no current
document saves nothing. -/
theorem claim_C8 (cf : FlowType ν ε) (s : AutosaveState ν ε)
    (t1 t2 t3 T : Nat) (p1 p2 p3 : AutosavePayload ν ε)
    (h12 : t2 < t1 + 300) (h23 : t3 < t2 + 300) (hT : t3 + 300 ≤ T) :
    (∀ (currentFlow : Option (FlowType ν ε)) (t : Nat) (p : AutosavePayload ν ε),
      (autosaveStep currentFlow s (AutosaveEvent.call t p)).pending = some (t + 300, p) ∧
      (autosaveStep currentFlow s (AutosaveEvent.call t p)).saves = s.saves) ∧
    autosaveRun (some cf) { pending := none, saves := [] }
      [AutosaveEvent.call t1 p1, AutosaveEvent.tick t2,
        AutosaveEvent.call t2 p2, AutosaveEvent.tick t3,
        AutosaveEvent.call t3 p3, AutosaveEvent.tick T]
      = { pending := none,
          saves := [{ cf with data :=
            { nodes := p3.nodes, edges := p3.edges, viewport := p3.viewport } }] } ∧
    (∀ t : Nat, (autosaveStep none s (AutosaveEvent.tick t)).saves = s.saves) := by
  refine ⟨?_, ?_, ?_⟩
  · intro currentFlow t p
    exact ⟨rfl, rfl⟩
  · have e1 : ¬ (t1 + 300 ≤ t2) := by omega
    have e2 : ¬ (t2 + 300 ≤ t3) := by omega
    have e3 : t3 + 300 ≤ T := hT
    simp only [autosaveRun, List.foldl, autosaveStep, autoSaveCurrentFlow,
      fireDueTimer, if_neg e1, if_neg e2, if_pos e3, List.nil_append]
  · intro t
    simp only [autosaveStep, fireDueTimer]
    match hp : s.pending with
    | none => rfl
    | some (due, p) =>
      by_cases hdue : due ≤ t
      · simp [hdue]
      · simp [hdue]

def c8Flow : FlowType Nat Nat where
  id := "flow1"
  name := "Flow"
  is_component := none
  data := { nodes := [], edges := [], viewport := { zoom := 1, x := 0, y := 0 } }

def c8p (k : Nat) : AutosavePayload Nat Nat where
  nodes := [k]
  edges := []
  viewport := { zoom := 1, x := 0, y := 0 }

def c8s : AutosaveState Nat Nat where
  pending := some (100, c8p 9)
  saves := []

theorem claim_C8_witness :
    (100 < 0 + 300) ∧ (200 < 100 + 300) ∧ (200 + 300 ≤ 600) ∧
    ((autosaveStep (some c8Flow) c8s (AutosaveEvent.call 40 (c8p 1))).pending
        = some (40 + 300, c8p 1) ∧
      (autosaveStep (some c8Flow) c8s (AutosaveEvent.call 40 (c8p 1))).saves
        = c8s.saves) ∧
    autosaveRun (some c8Flow) { pending := none, saves := [] }
      [AutosaveEvent.call 0 (c8p 1), AutosaveEvent.tick 100,
        AutosaveEvent.call 100 (c8p 2), AutosaveEvent.tick 200,
        AutosaveEvent.call 200 (c8p 3), AutosaveEvent.tick 600]
      = { pending := none,
          saves := [{ c8Flow with data :=
            { nodes := (c8p 3).nodes, edges := (c8p 3).edges,
              viewport := (c8p 3).viewport } }] } ∧
    (autosaveStep none c8s (AutosaveEvent.tick 999)).saves = c8s.saves :=
  ⟨by decide, by decide, by decide,
    (claim_C8 c8Flow c8s 0 100 200 600 (c8p 1) (c8p 2) (c8p 3)
      (by decide) (by decide) (by decide)).1 (some c8Flow) 40 (c8p 1),
    (claim_C8 c8Flow c8s 0 100 200 600 (c8p 1) (c8p 2) (c8p 3)
      (by decide) (by decide) (by decide)).2.1,
    (claim_C8 c8Flow c8s 0 100 200 600 (c8p 1) (c8p 2) (c8p 3)
      (by decide) (by decide) (by decide)).2.2 999⟩

end FlowsManager
